import Mathlib

/-!
Shallow embedding of the `asgi-caches` HTTP caching middleware.

The repository ships the exception taxonomy (`src/asgi_caches/exceptions.py`)
and the test suite; the caching core itself (`CacheMiddleware`, `Rule`,
the cacheability predicates, the key/Vary resolver and the decorators) is
not under `src/`, so the definitions below are modelled from the
specification (`spec.md`, sections 3, 4.1-4.6) and checked against the
behaviours pinned down by the tests.
-/

namespace AsgiCaches

instance {ε α : Type} [DecidableEq ε] [DecidableEq α] : DecidableEq (Except ε α) :=
  fun a b =>
    match a, b with
    | .error e, .error f =>
      if h : e = f then .isTrue (by rw [h])
      else .isFalse (fun hh => h (by injection hh))
    | .error _, .ok _ => .isFalse (fun hh => Except.noConfusion hh)
    | .ok _, .error _ => .isFalse (fun hh => Except.noConfusion hh)
    | .ok x, .ok y =>
      if h : x = y then .isTrue (by rw [h])
      else .isFalse (fun hh => h (by injection hh))

/-- ASCII lowercase of one character. -/
def lowerChar (c : Char) : Char :=
  if 'A' ≤ c && c ≤ 'Z' then Char.ofNat (c.toNat + 32) else c

/-- ASCII-lowercase a string (character-list based, so it evaluates in the
kernel). -/
def lowerStr (s : String) : String := ⟨s.data.map lowerChar⟩

/-- Whitespace as stripped by Python's `str.strip()`. -/
def isSpaceChar (c : Char) : Bool :=
  c == ' ' || c == '\t' || c == '\n' || c == '\r' || c == '\x0b' || c == '\x0c'

/-- Strip leading and trailing whitespace. -/
def stripStr (s : String) : String :=
  ⟨((s.data.dropWhile isSpaceChar).reverse.dropWhile isSpaceChar).reverse⟩

/-- Split a character list at each comma. -/
def splitCommaAux (cur : List Char) : List Char → List (List Char)
  | [] => [cur.reverse]
  | c :: cs =>
    if c == ',' then cur.reverse :: splitCommaAux [] cs
    else splitCommaAux (c :: cur) cs

/-- Split a string on commas (the separator of a `Vary` header list). -/
def splitComma (s : String) : List String :=
  (splitCommaAux [] s.data).map (fun cs => ⟨cs⟩)

/-- An HTTP request as seen by the middleware: method, path, and the
request headers (ordered name/value pairs, names matched case-insensitively). -/
structure HRequest where
  method : String
  path : String
  headers : List (String × String)
deriving DecidableEq, Repr

/-- An HTTP response: status code, ordered headers, full body bytes
(modelled as a string), and whether the body was produced by streaming
(chunked, length unknown at capture time). -/
structure HResponse where
  status : Nat
  headers : List (String × String)
  body : String
  streaming : Bool
deriving DecidableEq, Repr

/-- Case-insensitive header lookup: the value of the first header whose
name equals `name` up to ASCII case. -/
def headerLookup (hs : List (String × String)) (name : String) : Option String :=
  (hs.find? (fun p => lowerStr p.1 == lowerStr name)).map (fun p => p.2)

/-- Whether a header with the given (case-insensitive) name is present. -/
def hasHeader (hs : List (String × String)) (name : String) : Bool :=
  (headerLookup hs name).isSome

/-- Modelled from the spec: polymorphic path matching (spec 9, "Polymorphic
path matching"), a tagged variant of a literal string or the wildcard used
by the default rule `Rule()`. -/
inductive PathMatcher
  | any
  | literal (s : String)
deriving DecidableEq, Repr

/-- Whether a path matcher accepts a path. The wildcard accepts every path. -/
def PathMatcher.matches : PathMatcher → String → Bool
  | .any, _ => true
  | .literal s, p => p == s

/-- Modelled from the spec: a `Rule` (spec 3) associating a path matcher, an
optional status-code filter and an optional TTL. `ttl = some 0` means "never
cache"; `ttl = none` means "use the enclosing default TTL". The Python
`rules.py` module is not under `src/`. -/
structure Rule where
  pathMatch : PathMatcher
  status : Option Nat
  ttl : Option Nat
deriving DecidableEq, Repr

/-- The default rule `Rule()`: wildcard path, no status filter, default TTL. -/
def Rule.default : Rule := ⟨PathMatcher.any, none, none⟩

/-- A rule applies to a (path, response status) pair when its path matcher
accepts the path AND it has no status filter or the filter equals the
status (spec 4.1). -/
def Rule.appliesAt (r : Rule) (path : String) (status : Nat) : Bool :=
  r.pathMatch.matches path && (r.status.isNone || r.status == some status)

/-- Modelled from the spec: an empty rule list behaves as the single
implicit wildcard rule with the default TTL (spec 3, RuleSet invariant). -/
def effectiveRules (rules : List Rule) : List Rule :=
  if rules.isEmpty then [Rule.default] else rules

/-- Modelled from the spec: the request-time pass of rule evaluation
(spec 4.1), ignoring status filters — decides whether it is even possible
this path gets cached. -/
def requestMatches (rules : List Rule) (path : String) : Bool :=
  rules.any (fun r => r.pathMatch.matches path)

/-- Modelled from the spec: the response-time pass of rule evaluation
(spec 4.1). First-applicable-wins over rule order; the matched rule's TTL
(or the default TTL when the rule has none); `none` when no rule matches,
meaning "do not cache". -/
def responseTtl (defaultTtl : Nat) (path : String) (status : Nat) :
    List Rule → Option Nat
  | [] => none
  | r :: rs =>
    if r.appliesAt path status then some (r.ttl.getD defaultTtl)
    else responseTtl defaultTtl path status rs

/-- Modelled from the spec: request cacheability (spec 4.2) — true only for
`GET` and `HEAD`. -/
def is_request_cachable (req : HRequest) : Bool :=
  req.method == "GET" || req.method == "HEAD"

/-- Whether the request carried any cookies (a `Cookie` header). -/
def requestHasCookies (req : HRequest) : Bool :=
  hasHeader req.headers "Cookie"

/-- Whether the response sets cookies (a `Set-Cookie` header). -/
def responseSetsCookies (resp : HResponse) : Bool :=
  hasHeader resp.headers "Set-Cookie"

/-- Modelled from the spec: response cacheability (spec 4.2) — false unless
the status is 200; false for streaming bodies; false when the response sets
cookies unless the originating request itself carried cookies. (The TTL-of-0
veto is applied by the middleware after rule evaluation.) -/
def is_response_cachable (req : HRequest) (resp : HResponse) : Bool :=
  resp.status == 200 && !resp.streaming &&
    (!responseSetsCookies resp || requestHasCookies req)

/-- Modelled from the spec: key derivation for `HEAD` and `GET` on the same
path must coincide (spec 4.4), so the method component of a cache key
normalizes `HEAD` to `GET`. -/
def keyMethod (m : String) : String :=
  if m == "HEAD" then "GET" else m

/-- Modelled from the spec: a cache key (spec 4.3). The spec demands a
deterministic, collision-resistant encoding of the namespace, method and
path (primary key), optionally extended with the ordered values of the
`Vary`-named request headers (variant key); the structured form makes the
demanded collision-freedom explicit. -/
inductive CacheKey
  | primary (ns method path : String)
  | variant (ns method path : String) (varyValues : List String)
deriving DecidableEq, Repr

/-- The primary cache key of a request under a backend namespace. -/
def primaryKey (ns : String) (req : HRequest) : CacheKey :=
  .primary ns (keyMethod req.method) req.path

/-- The `Vary` header names declared by a response: the comma-separated
list, each name stripped and lowercased; `[]` when no `Vary` header. -/
def varyNames (resp : HResponse) : List String :=
  match headerLookup resp.headers "Vary" with
  | none => []
  | some v => (splitComma v).map (fun s => lowerStr (stripStr s))

/-- The ordered values of the named request headers, a missing header
contributing the empty string, values stripped (spec 4.3). -/
def varyValues (names : List String) (req : HRequest) : List String :=
  names.map (fun n => stripStr ((headerLookup req.headers n).getD ""))

/-- The variant key for a request given the recorded `Vary` header names. -/
def variantKey (ns : String) (req : HRequest) (names : List String) : CacheKey :=
  .variant ns (keyMethod req.method) req.path (varyValues names req)

/-- A stored cache entry: status, headers (ordered, duplicates preserved)
and body bytes (spec 3, CachedEntry). -/
structure CachedEntry where
  status : Nat
  headers : List (String × String)
  body : String
deriving DecidableEq, Repr

/-- The entry a response is serialized to. -/
def toEntry (resp : HResponse) : CachedEntry :=
  ⟨resp.status, resp.headers, resp.body⟩

/-- First-match association-list lookup (newest binding first). -/
def assocGet {α β : Type} [DecidableEq α] (l : List (α × β)) (k : α) : Option β :=
  (l.find? (fun p => decide (p.1 = k))).map (fun p => p.2)

/-- Modelled from the spec: the external key-value store (spec 4.3), holding
the control records (the `Vary` names last recorded at a primary key) and
the full cached entries. -/
structure Store where
  control : List (CacheKey × List String)
  entries : List (CacheKey × CachedEntry)
deriving DecidableEq, Repr

/-- A fresh, empty store. -/
def Store.empty : Store := ⟨[], []⟩

/-- Modelled from the spec: `lookup` (spec 4.3) — fetch the control record
at the primary key; with no `Vary` recorded fetch the primary key directly,
otherwise recompute the variant key from the current request's header
values and fetch that. -/
def Store.lookup (st : Store) (ns : String) (req : HRequest) : Option CachedEntry :=
  let pk := primaryKey ns req
  match assocGet st.control pk with
  | none => assocGet st.entries pk
  | some [] => assocGet st.entries pk
  | some names => assocGet st.entries (variantKey ns req names)

/-- Modelled from the spec: `store` (spec 4.3) — write/overwrite the control
record at the primary key with the response's `Vary` names, then write the
entry at the variant key (or directly at the primary key when there is no
`Vary`). -/
def Store.put (st : Store) (ns : String) (req : HRequest) (resp : HResponse) : Store :=
  let pk := primaryKey ns req
  let names := varyNames resp
  let entry := toEntry resp
  if names = [] then ⟨(pk, names) :: st.control, (pk, entry) :: st.entries⟩
  else ⟨(pk, names) :: st.control, (variantKey ns req names, entry) :: st.entries⟩

/-- Two-digit zero padding for date fields. -/
def pad2 (n : Nat) : String :=
  if n < 10 then "0" ++ toString n else toString n

/-- Abbreviated weekday name, `0 = Sunday`. -/
def weekdayName : Nat → String
  | 0 => "Sun" | 1 => "Mon" | 2 => "Tue" | 3 => "Wed"
  | 4 => "Thu" | 5 => "Fri" | _ => "Sat"

/-- Abbreviated month name, `1 = January`. -/
def monthName : Nat → String
  | 1 => "Jan" | 2 => "Feb" | 3 => "Mar" | 4 => "Apr"
  | 5 => "May" | 6 => "Jun" | 7 => "Jul" | 8 => "Aug"
  | 9 => "Sep" | 10 => "Oct" | 11 => "Nov" | _ => "Dec"

/-- Civil (year, month, day) of a day count since 1970-01-01, by the
standard era decomposition of the proleptic Gregorian calendar. -/
def civilFromDays (d : Nat) : Nat × Nat × Nat :=
  let z := d + 719468
  let era := z / 146097
  let doe := z % 146097
  let yoe := (doe - doe / 1460 + doe / 36524 - doe / 146096) / 365
  let doy := doe - (365 * yoe + yoe / 4 - yoe / 100)
  let mp := (5 * doy + 2) / 153
  let day := doy - (153 * mp + 2) / 5 + 1
  let m := if mp < 10 then mp + 3 else mp - 9
  (yoe + era * 400 + (if m ≤ 2 then 1 else 0), m, day)

/-- The HTTP-date (RFC 1123, GMT) string of an epoch timestamp in seconds,
the format `%a, %d %b %Y %H:%M:%S GMT` of the `Expires` header. -/
def httpDate (t : Nat) : String :=
  let days := t / 86400
  let secs := t % 86400
  let c := civilFromDays days
  weekdayName ((days + 4) % 7) ++ ", " ++ pad2 c.2.2 ++ " " ++
    monthName c.2.1 ++ " " ++ toString c.1 ++ " " ++
    pad2 (secs / 3600) ++ ":" ++ pad2 (secs / 60 % 60) ++ ":" ++
    pad2 (secs % 60) ++ " GMT"

/-- Modelled from the spec: the `Cache-Control` directives a handler can be
annotated with via `cache_control(**directives)` (spec 4.6); the
`decorators.py` module is not under `src/`. -/
structure CacheDirectives where
  maxAge : Option Nat
  mustRevalidate : Bool
deriving DecidableEq, Repr

/-- The `Cache-Control` header text built from decorator directives,
e.g. `max-age=30, must-revalidate`. -/
def renderDirectives (d : CacheDirectives) : String :=
  String.intercalate ", "
    ((match d.maxAge with
      | some n => ["max-age=" ++ toString n]
      | none => []) ++
     (if d.mustRevalidate then ["must-revalidate"] else []))

/-- Modelled from the spec: response decoration on the miss path
(spec 4.4) — synthesize `Cache-Control: max-age=<ttl>` and
`Expires: <capture time + ttl as HTTP-date>` unless the response already
carries them (e.g. set by a decorator override). -/
def withCacheHeaders (now ttl : Nat) (resp : HResponse) : HResponse :=
  let hs := resp.headers
  let hs :=
    if hasHeader hs "Cache-Control" then hs
    else hs ++ [("Cache-Control", "max-age=" ++ toString ttl)]
  let hs :=
    if hasHeader hs "Expires" then hs
    else hs ++ [("Expires", httpDate (now + ttl))]
  { resp with headers := hs }

/-- Modelled from the spec: the middleware's configuration — the backend's
namespace and default TTL, and the ordered rule list supplied at
construction (spec 6, "Rule declaration surface"). -/
structure Config where
  ns : String
  defaultTtl : Nat
  rules : List Rule
deriving DecidableEq, Repr

/-- Modelled from the spec: the request's traversal context (ASGI scope),
carrying the request and the duplicate-caching sentinel the middleware
marks it with on first engagement (spec 4.5). -/
structure AsgiScope where
  request : HRequest
  cacheMarked : Bool
deriving DecidableEq, Repr

/-- The fatal per-request conditions of the error taxonomy (spec 7) whose
classes live in `src/asgi_caches/exceptions.py`. -/
inductive CacheFailure
  | duplicateCaching
deriving DecidableEq, Repr

/-- A downstream ASGI application: from a scope, either a fatal caching
error or a response together with the number of times the innermost
(non-middleware) handler was invoked while producing it. -/
def Handler : Type := AsgiScope → Except CacheFailure (HResponse × Nat)

/-- A plain downstream handler: a pure request-to-response function,
counting one downstream invocation per call. -/
def plainHandler (f : HRequest → HResponse) : Handler :=
  fun sc => .ok (f sc.request, 1)

/-- Modelled from the spec: one pass of the interception middleware
(spec 4.4, 4.5) over an HTTP request. If the scope already carries the
caching sentinel, fail fast with `duplicateCaching`; otherwise mark the
scope. A non-cachable method or a path no rule matches is passed through
untouched. Otherwise look the request up: a hit is served verbatim from
the stored entry without invoking downstream; a miss invokes downstream,
and stores the captured response — decorated with `Cache-Control` and
`Expires` — when the response-time rule pass yields a nonzero TTL and the
response predicate accepts it. Returns the response, the updated store and
the downstream invocation count. -/
def serve (cfg : Config) (handler : Handler) (st : Store) (now : Nat)
    (sc : AsgiScope) : Except CacheFailure (HResponse × Store × Nat) :=
  if sc.cacheMarked then .error .duplicateCaching
  else
    let sc := { sc with cacheMarked := true }
    let req := sc.request
    if !is_request_cachable req || !requestMatches (effectiveRules cfg.rules) req.path then
      (handler sc).map (fun r => (r.1, st, r.2))
    else
      match st.lookup cfg.ns req with
      | some e => .ok (⟨e.status, e.headers, e.body, false⟩, st, 0)
      | none =>
        (handler sc).map (fun r =>
          match responseTtl cfg.defaultTtl req.path r.1.status (effectiveRules cfg.rules) with
          | none => (r.1, st, r.2)
          | some 0 => (r.1, st, r.2)
          | some (t + 1) =>
            if is_response_cachable req r.1 then
              let resp := withCacheHeaders now (t + 1) r.1
              (resp, st.put cfg.ns req resp, r.2)
            else (r.1, st, r.2))

/-- The middleware itself as a downstream handler, for nesting one
middleware inside another (the inner one's store updates are its own). -/
def middlewareHandler (cfg : Config) (st : Store) (now : Nat)
    (handler : Handler) : Handler :=
  fun sc => (serve cfg handler st now sc).map (fun r => (r.1, r.2.2))

/-- A sequence of requests served through one middleware instance, each at
its own wall-clock time, threading the store; returns the responses paired
with their downstream invocation counts, and the final store. -/
def serveRun (cfg : Config) (handler : Handler) (st : Store) :
    List (Nat × HRequest) → Except CacheFailure (List (HResponse × Nat) × Store)
  | [] => .ok ([], st)
  | (now, req) :: rest => do
    let r ← serve cfg handler st now ⟨req, false⟩
    let rs ← serveRun cfg handler r.2.1 rest
    .ok ((r.1, r.2.2) :: rs.1, rs.2)

/-- Modelled from the spec: the `cache_control(**directives)` decorator
(spec 4.6) — wraps a handler so its responses carry the `Cache-Control`
text built from the directives. -/
def cache_control (d : CacheDirectives) (f : HRequest → HResponse) :
    HRequest → HResponse :=
  fun req =>
    let resp := f req
    { resp with headers := resp.headers ++ [("Cache-Control", renderDirectives d)] }

/-- Modelled from the spec: the body the client observes for a response to
a given request method — a `HEAD` response delivers no body to the client
even though the middleware captured and may have stored the full body. -/
def clientBody (method : String) (resp : HResponse) : String :=
  if method == "HEAD" then "" else resp.body

/-- The constant `Hello, world!` handler used throughout the tests. -/
def helloApp : HRequest → HResponse :=
  fun _ => ⟨200, [("Content-Type", "text/plain")], "Hello, world!", false⟩

/-- The content-negotiating handler of `test_vary`: a gzip body with
`Content-Encoding: gzip` when the request accepts gzip, a plain body
otherwise; either way the response declares `Vary: Accept-Encoding`. -/
def gzipApp : HRequest → HResponse := fun req =>
  if (headerLookup req.headers "Accept-Encoding").getD "" == "gzip" then
    ⟨200, [("Content-Encoding", "gzip"), ("Vary", "Accept-Encoding")],
      "gzipped:Hello, world!", false⟩
  else ⟨200, [("Vary", "Accept-Encoding")], "Hello, world!", false⟩

/-- A `GET /` carrying a given `Accept-Encoding` value. -/
def acceptReq (enc : String) : HRequest :=
  ⟨"GET", "/", [("Accept-Encoding", enc)]⟩

/-- The middleware configuration of most tests: default backend TTL of
two minutes, no explicit rules. -/
def defaultConfig : Config := ⟨"default", 120, []⟩

/-- The rule list of `test_cache_deny_paths`:
`[Rule("/no_cache", ttl=0), Rule()]`. -/
def denyConfig : Config :=
  ⟨"default", 120, [⟨PathMatcher.literal "/no_cache", none, some 0⟩, Rule.default]⟩

/-- The rule list of `test_rule_exclusion`: `[Rule(status=200, ttl=60)]`. -/
def statusConfig : Config := ⟨"default", 120, [⟨PathMatcher.any, some 200, some 60⟩]⟩

/-- The 404 handler of `test_rule_exclusion`. -/
def notFoundApp : HRequest → HResponse := fun _ => ⟨404, [], "Hello, world!", false⟩

/-- A configuration whose single rule yields a TTL of 0 for every path:
caching is vetoed everywhere. -/
def zeroTtlConfig : Config := ⟨"default", 120, [⟨PathMatcher.any, none, some 0⟩]⟩

theorem assocGet_nil {α β : Type} [DecidableEq α] (k : α) :
    assocGet ([] : List (α × β)) k = none := rfl

theorem assocGet_cons_self {α β : Type} [DecidableEq α] (k : α) (v : β)
    (l : List (α × β)) : assocGet ((k, v) :: l) k = some v := by
  simp [assocGet]

theorem assocGet_singleton {α β : Type} [DecidableEq α] (k1 k2 : α) (v : β) :
    assocGet [(k1, v)] k2 = if k1 = k2 then some v else none := by
  by_cases h : k1 = k2 <;> simp [assocGet, h]

theorem lookup_empty (ns : String) (req : HRequest) :
    Store.empty.lookup ns req = none := rfl

theorem put_lookup_self (st : Store) (ns : String) (req : HRequest)
    (resp : HResponse) :
    (st.put ns req resp).lookup ns req = some (toEntry resp) := by
  unfold Store.put Store.lookup
  cases hn : varyNames resp with
  | nil => simp [assocGet_cons_self]
  | cons n ns' => simp [assocGet_cons_self]

theorem withCacheHeaders_body (now t : Nat) (r : HResponse) :
    (withCacheHeaders now t r).body = r.body := rfl

theorem withCacheHeaders_status (now t : Nat) (r : HResponse) :
    (withCacheHeaders now t r).status = r.status := rfl

theorem withCacheHeaders_streaming (now t : Nat) (r : HResponse) :
    (withCacheHeaders now t r).streaming = r.streaming := rfl

theorem serve_marked (cfg : Config) (handler : Handler) (st : Store) (now : Nat)
    (sc : AsgiScope) (h : sc.cacheMarked = true) :
    serve cfg handler st now sc = .error .duplicateCaching := by
  simp [serve, h]

theorem serve_passthrough (cfg : Config) (f : HRequest → HResponse) (st : Store)
    (now : Nat) (req : HRequest)
    (h : (!is_request_cachable req ||
      !requestMatches (effectiveRules cfg.rules) req.path) = true) :
    serve cfg (plainHandler f) st now ⟨req, false⟩ = .ok (f req, st, 1) := by
  simp [serve, plainHandler, h, Except.map]

theorem serve_hit (cfg : Config) (handler : Handler) (st : Store) (now : Nat)
    (req : HRequest) (e : CachedEntry)
    (h1 : is_request_cachable req = true)
    (h2 : requestMatches (effectiveRules cfg.rules) req.path = true)
    (h3 : st.lookup cfg.ns req = some e) :
    serve cfg handler st now ⟨req, false⟩ =
      .ok (⟨e.status, e.headers, e.body, false⟩, st, 0) := by
  simp [serve, h1, h2, h3]

theorem serve_miss_store (cfg : Config) (f : HRequest → HResponse) (st : Store)
    (now : Nat) (req : HRequest) (t : Nat)
    (h1 : is_request_cachable req = true)
    (h2 : requestMatches (effectiveRules cfg.rules) req.path = true)
    (h3 : st.lookup cfg.ns req = none)
    (h4 : responseTtl cfg.defaultTtl req.path (f req).status
      (effectiveRules cfg.rules) = some t)
    (h5 : t ≠ 0)
    (h6 : is_response_cachable req (f req) = true) :
    serve cfg (plainHandler f) st now ⟨req, false⟩ =
      .ok (withCacheHeaders now t (f req),
        st.put cfg.ns req (withCacheHeaders now t (f req)), 1) := by
  obtain ⟨t', rfl⟩ : ∃ t', t = t' + 1 := ⟨t - 1, by omega⟩
  simp [serve, plainHandler, h1, h2, h3, h4, h6, Except.map]

theorem serve_miss_nostore (cfg : Config) (f : HRequest → HResponse) (st : Store)
    (now : Nat) (req : HRequest)
    (h1 : is_request_cachable req = true)
    (h2 : requestMatches (effectiveRules cfg.rules) req.path = true)
    (h3 : st.lookup cfg.ns req = none)
    (h4 : responseTtl cfg.defaultTtl req.path (f req).status
        (effectiveRules cfg.rules) = none ∨
      responseTtl cfg.defaultTtl req.path (f req).status
        (effectiveRules cfg.rules) = some 0 ∨
      is_response_cachable req (f req) = false) :
    serve cfg (plainHandler f) st now ⟨req, false⟩ = .ok (f req, st, 1) := by
  rcases h4 with h4 | h4 | h4
  · simp [serve, plainHandler, h1, h2, h3, h4, Except.map]
  · simp [serve, plainHandler, h1, h2, h3, h4, Except.map]
  · cases ht : responseTtl cfg.defaultTtl req.path (f req).status
      (effectiveRules cfg.rules) with
    | none => simp [serve, plainHandler, h1, h2, h3, ht, Except.map]
    | some t =>
      cases t with
      | zero => simp [serve, plainHandler, h1, h2, h3, ht, Except.map]
      | succ t' => simp [serve, plainHandler, h1, h2, h3, ht, h4, Except.map]

theorem serveRun_nil (cfg : Config) (handler : Handler) (st : Store) :
    serveRun cfg handler st [] = .ok ([], st) := rfl

theorem serveRun_cons_ok (cfg : Config) (handler : Handler) (st st' st'' : Store)
    (now : Nat) (req : HRequest) (r : HResponse) (n : Nat)
    (rest : List (Nat × HRequest)) (out : List (HResponse × Nat))
    (hserve : serve cfg handler st now ⟨req, false⟩ = .ok (r, st', n))
    (hrest : serveRun cfg handler st' rest = .ok (out, st'')) :
    serveRun cfg handler st ((now, req) :: rest) = .ok ((r, n) :: out, st'') := by
  simp [serveRun, hserve, hrest, Except.bind, bind, Except.instMonad]

theorem entry_roundtrip (r : HResponse) (h : r.streaming = false) :
    (⟨(toEntry r).status, (toEntry r).headers, (toEntry r).body, false⟩ : HResponse) = r := by
  cases r
  simp_all [toEntry]

theorem response_cachable_facts (req : HRequest) (resp : HResponse)
    (h : is_response_cachable req resp = true) :
    resp.status = 200 ∧ resp.streaming = false := by
  simp only [is_response_cachable, Bool.and_eq_true, beq_iff_eq,
    Bool.not_eq_true'] at h
  exact ⟨h.1.1, h.1.2⟩

/-- C1: serving from cache is a faithful round-trip — once the middleware
stores a response (cachable request on a fresh key, nonzero TTL decision,
cachable response), every later identical request, repeated any number of
times, is served exactly the stored status, header set and body, and the
downstream handler is never invoked again (invocation count 0 each time). -/
theorem serve_hit_roundtrip (cfg : Config) (f : HRequest → HResponse)
    (req : HRequest) (st0 : Store) (now t : Nat)
    (h1 : is_request_cachable req = true)
    (h2 : requestMatches (effectiveRules cfg.rules) req.path = true)
    (h3 : st0.lookup cfg.ns req = none)
    (h4 : responseTtl cfg.defaultTtl req.path (f req).status
      (effectiveRules cfg.rules) = some t)
    (h5 : t ≠ 0)
    (h6 : is_response_cachable req (f req) = true) :
    ∃ r1 st1,
      serve cfg (plainHandler f) st0 now ⟨req, false⟩ = .ok (r1, st1, 1) ∧
      ∀ times : List Nat,
        serveRun cfg (plainHandler f) st1 (times.map (fun u => (u, req))) =
          .ok (times.map (fun _ => (r1, 0)), st1) := by
  refine ⟨withCacheHeaders now t (f req),
    st0.put cfg.ns req (withCacheHeaders now t (f req)),
    serve_miss_store cfg f st0 now req t h1 h2 h3 h4 h5 h6, ?_⟩
  have hstream : (withCacheHeaders now t (f req)).streaming = false := by
    rw [withCacheHeaders_streaming]
    exact (response_cachable_facts req (f req) h6).2
  have hhit : ∀ u : Nat,
      serve cfg (plainHandler f)
        (st0.put cfg.ns req (withCacheHeaders now t (f req))) u ⟨req, false⟩ =
        .ok (withCacheHeaders now t (f req),
          st0.put cfg.ns req (withCacheHeaders now t (f req)), 0) := by
    intro u
    rw [serve_hit cfg (plainHandler f) _ u req
      (toEntry (withCacheHeaders now t (f req))) h1 h2
      (put_lookup_self st0 cfg.ns req _),
      entry_roundtrip _ hstream]
  intro times
  induction times with
  | nil => exact serveRun_nil cfg (plainHandler f) _
  | cons u us ih =>
    exact serveRun_cons_ok cfg (plainHandler f) _ _ _ u req _ 0 _ _ (hhit u) ih

theorem serve_hit_roundtrip_witness :
    ∃ r1 st1,
      serve defaultConfig (plainHandler helloApp) Store.empty 0
        ⟨⟨"GET", "/", []⟩, false⟩ = .ok (r1, st1, 1) ∧
      ∀ times : List Nat,
        serveRun defaultConfig (plainHandler helloApp) st1
          (times.map (fun u => (u, ⟨"GET", "/", []⟩))) =
          .ok (times.map (fun _ => (r1, 0)), st1) :=
  serve_hit_roundtrip defaultConfig helloApp ⟨"GET", "/", []⟩ Store.empty 0 120
    (by decide) (by decide) (by decide) (by decide) (by decide) (by decide)

/-- C2: Vary-driven variant selection — after storing a response declaring
`Vary` header names on a fresh store, a later request with the same primary
key is served that stored entry exactly when its values for the named
headers match the values recorded at store time; concretely, storing
`GET /` with `Vary: Accept-Encoding` under `gzip` makes a later
`Accept-Encoding: identity` request a miss (downstream invoked) and a
further `Accept-Encoding: gzip` request a hit (downstream not invoked). -/
theorem vary_variant_selection (ns : String) (reqA reqB : HRequest)
    (respV : HResponse) (n : String) (names : List String)
    (hv : varyNames respV = n :: names)
    (hpk : primaryKey ns reqB = primaryKey ns reqA) :
    (∀ e, (Store.empty.put ns reqA respV).lookup ns reqB = some e ↔
      (varyValues (n :: names) reqB = varyValues (n :: names) reqA ∧
        e = toEntry respV)) ∧
    (serveRun defaultConfig (plainHandler gzipApp) Store.empty
      [(0, acceptReq "gzip"), (1, acceptReq "identity"), (2, acceptReq "gzip")]).map
      (fun r => r.1.map (fun p =>
        ((headerLookup p.1.headers "Content-Encoding").getD "", p.1.body, p.2))) =
      .ok [("gzip", "gzipped:Hello, world!", 1), ("", "Hello, world!", 1),
        ("gzip", "gzipped:Hello, world!", 0)] := by
  constructor
  · have hpk' : keyMethod reqA.method = keyMethod reqB.method ∧
        reqA.path = reqB.path := by
      simpa [primaryKey, CacheKey.primary.injEq, eq_comm] using hpk
    have hput : Store.empty.put ns reqA respV =
        ⟨[(primaryKey ns reqA, n :: names)],
          [(variantKey ns reqA (n :: names), toEntry respV)]⟩ := by
      simp [Store.put, Store.empty, hv]
    have hiff : (variantKey ns reqA (n :: names) = variantKey ns reqB (n :: names)) ↔
        varyValues (n :: names) reqB = varyValues (n :: names) reqA := by
      simp [variantKey, CacheKey.variant.injEq, hpk'.1, hpk'.2, eq_comm]
    have hlook : (Store.empty.put ns reqA respV).lookup ns reqB =
        if variantKey ns reqA (n :: names) = variantKey ns reqB (n :: names)
        then some (toEntry respV) else none := by
      rw [hput]
      simp [Store.lookup, hpk, assocGet_singleton, assocGet_cons_self]
    intro e
    rw [hlook]
    by_cases hkey : variantKey ns reqA (n :: names) = variantKey ns reqB (n :: names)
    · simp [hkey, hiff.mp hkey, eq_comm]
    · rw [if_neg hkey]
      constructor
      · intro h
        exact Option.noConfusion h
      · intro h
        exact absurd (hiff.mpr h.1) hkey
  · decide

theorem vary_variant_selection_witness :
    (∀ e, (Store.empty.put "default" (acceptReq "gzip") (gzipApp (acceptReq "gzip"))).lookup
        "default" (acceptReq "identity") = some e ↔
      (varyValues ["accept-encoding"] (acceptReq "identity") =
        varyValues ["accept-encoding"] (acceptReq "gzip") ∧
        e = toEntry (gzipApp (acceptReq "gzip")))) ∧
    (serveRun defaultConfig (plainHandler gzipApp) Store.empty
      [(0, acceptReq "gzip"), (1, acceptReq "identity"), (2, acceptReq "gzip")]).map
      (fun r => r.1.map (fun p =>
        ((headerLookup p.1.headers "Content-Encoding").getD "", p.1.body, p.2))) =
      .ok [("gzip", "gzipped:Hello, world!", 1), ("", "Hello, world!", 1),
        ("gzip", "gzipped:Hello, world!", 0)] :=
  vary_variant_selection "default" (acceptReq "gzip") (acceptReq "identity")
    (gzipApp (acceptReq "gzip")) "accept-encoding" [] (by decide) (by decide)

/-- C3: rule evaluation is first-applicable-wins — the TTL decision comes
from the first rule whose path matcher accepts the path and whose status
filter (if any) equals the response status; no matching rule means
do-not-cache. Concretely, under `[Rule("/no_cache", ttl=0), Rule()]` the
path `/no_cache` is never cached (both identical requests invoke
downstream) while another path is cached after its first request, and
under `[Rule(status=200, ttl=60)]` a 404 response is never cached. -/
theorem rule_first_applicable_wins :
    (∀ (pre post : List Rule) (r : Rule) (path : String) (status d : Nat),
      (∀ r' ∈ pre, r'.appliesAt path status = false) →
      r.appliesAt path status = true →
      responseTtl d path status (pre ++ r :: post) = some (r.ttl.getD d)) ∧
    (∀ (rules : List Rule) (path : String) (status d : Nat),
      (∀ r ∈ rules, r.appliesAt path status = false) →
      responseTtl d path status rules = none) ∧
    (serveRun denyConfig (plainHandler helloApp) Store.empty
      [(0, ⟨"GET", "/no_cache", []⟩), (1, ⟨"GET", "/no_cache", []⟩)]).map
      (fun r => r.1.map (fun p => p.2)) = .ok [1, 1] ∧
    (serveRun denyConfig (plainHandler helloApp) Store.empty
      [(0, ⟨"GET", "/other", []⟩), (1, ⟨"GET", "/other", []⟩)]).map
      (fun r => r.1.map (fun p => p.2)) = .ok [1, 0] ∧
    (serveRun statusConfig (plainHandler notFoundApp) Store.empty
      [(0, ⟨"GET", "/", []⟩), (1, ⟨"GET", "/", []⟩)]).map
      (fun r => r.1.map (fun p => p.2)) = .ok [1, 1] := by
  refine ⟨?_, ?_, by decide, by decide, by decide⟩
  · intro pre post r path status d hpre hr
    induction pre with
    | nil => simp [responseTtl, hr]
    | cons r' pre' ih =>
      have h' := hpre r' (by simp)
      simp only [List.cons_append, responseTtl, h', if_false]
      exact ih (fun x hx => hpre x (by simp [hx]))
  · intro rules path status d hall
    induction rules with
    | nil => rfl
    | cons r rs ih =>
      have h' := hall r (by simp)
      simp only [responseTtl, h', if_false]
      exact ih (fun x hx => hall x (by simp [hx]))

theorem rule_first_applicable_wins_witness :
    responseTtl 120 "/no_cache" 200
      [⟨PathMatcher.literal "/no_cache", none, some 0⟩, Rule.default] = some 0 ∧
    responseTtl 120 "/" 404 [⟨PathMatcher.any, some 200, some 60⟩] = none :=
  ⟨rule_first_applicable_wins.1 [] [Rule.default]
      ⟨PathMatcher.literal "/no_cache", none, some 0⟩ "/no_cache" 200 120
      (by simp) (by decide),
    rule_first_applicable_wins.2.1 [⟨PathMatcher.any, some 200, some 60⟩] "/" 404 120
      (by decide)⟩

theorem headerLookup_append (a b : List (String × String)) (n : String) :
    headerLookup (a ++ b) n = (headerLookup a n).or (headerLookup b n) := by
  unfold headerLookup
  rw [List.find?_append]
  cases a.find? (fun p => lowerStr p.1 == lowerStr n) <;> simp

theorem headerLookup_single_ne (nm v n : String)
    (h : (lowerStr nm == lowerStr n) = false) :
    headerLookup [(nm, v)] n = none := by
  simp [headerLookup, List.find?, h]

theorem headerLookup_single_self (nm v n : String)
    (h : (lowerStr nm == lowerStr n) = true) :
    headerLookup [(nm, v)] n = some v := by
  simp [headerLookup, List.find?, h]

theorem headerLookup_tail_none (a tail : List (String × String)) (n : String)
    (htail : headerLookup tail n = none) :
    headerLookup (a ++ tail) n = headerLookup a n := by
  rw [headerLookup_append, htail]
  cases headerLookup a n <;> simp

theorem withCacheHeaders_headers (now t : Nat) (r : HResponse) :
    ∃ tail, (withCacheHeaders now t r).headers = r.headers ++ tail ∧
      ∀ p ∈ tail, p.1 = "Cache-Control" ∨ p.1 = "Expires" := by
  by_cases hcc : hasHeader r.headers "Cache-Control" = true
  · by_cases hex : hasHeader r.headers "Expires" = true
    · exact ⟨[], by simp [withCacheHeaders, hcc, hex], by simp⟩
    · exact ⟨[("Expires", httpDate (now + t))],
        by simp [withCacheHeaders, hcc, hex], by simp⟩
  · by_cases hex : hasHeader
        (r.headers ++ [("Cache-Control", "max-age=" ++ toString t)]) "Expires" = true
    · exact ⟨[("Cache-Control", "max-age=" ++ toString t)],
        by simp [withCacheHeaders, hcc, hex], by simp⟩
    · exact ⟨[("Cache-Control", "max-age=" ++ toString t),
        ("Expires", httpDate (now + t))],
        by simp [withCacheHeaders, hcc, hex], by simp⟩

theorem headerLookup_cc_expires_tail (tail : List (String × String)) (n : String)
    (hn : (lowerStr "Cache-Control" == lowerStr n) = false)
    (hn' : (lowerStr "Expires" == lowerStr n) = false)
    (htail : ∀ p ∈ tail, p.1 = "Cache-Control" ∨ p.1 = "Expires") :
    headerLookup tail n = none := by
  unfold headerLookup
  have hfind : List.find? (fun p => lowerStr p.1 == lowerStr n) tail = none := by
    rw [List.find?_eq_none]
    intro p hp
    rcases htail p hp with h | h <;> simp [h, hn, hn']
  rw [hfind]
  rfl

theorem headerLookup_withCacheHeaders_other (now t : Nat) (r : HResponse)
    (n : String)
    (hn : (lowerStr "Cache-Control" == lowerStr n) = false)
    (hn' : (lowerStr "Expires" == lowerStr n) = false) :
    headerLookup (withCacheHeaders now t r).headers n = headerLookup r.headers n := by
  obtain ⟨tail, heq, htail⟩ := withCacheHeaders_headers now t r
  rw [heq]
  exact headerLookup_tail_none _ _ _ (headerLookup_cc_expires_tail tail n hn hn' htail)

theorem varyNames_withCacheHeaders (now t : Nat) (r : HResponse) :
    varyNames (withCacheHeaders now t r) = varyNames r := by
  unfold varyNames
  rw [headerLookup_withCacheHeaders_other now t r "Vary" (by decide) (by decide)]

theorem serve_nostore_any_path (cfg : Config) (resp0 : HResponse) (req : HRequest)
    (st0 : Store) (u : Nat)
    (hm : is_request_cachable req = true)
    (hlk : st0.lookup cfg.ns req = none)
    (hnc : is_response_cachable req resp0 = false) :
    serve cfg (plainHandler (fun _ => resp0)) st0 u ⟨req, false⟩ =
      .ok (resp0, st0, 1) := by
  by_cases hmm : requestMatches (effectiveRules cfg.rules) req.path
  · exact serve_miss_nostore cfg (fun _ => resp0) st0 u req hm hmm hlk
      (Or.inr (Or.inr hnc))
  · exact serve_passthrough cfg (fun _ => resp0) st0 u req (by simp [hmm])

/-- C4: a response whose status code is not 200 is never stored — two
consecutive identical `GET` requests both invoke the downstream handler
(count 1 each), the responses are exactly the handler's response with no
`Expires`/`Cache-Control` added, and the store is left untouched; this
holds uniformly for every non-200 status with no per-code special-casing. -/
theorem non_200_never_stored (cfg : Config) (resp0 : HResponse) (path : String)
    (hs : List (String × String)) (st0 : Store) (t1 t2 : Nat)
    (hstatus : resp0.status ≠ 200)
    (hlk : st0.lookup cfg.ns ⟨"GET", path, hs⟩ = none) :
    serveRun cfg (plainHandler (fun _ => resp0)) st0
      [(t1, ⟨"GET", path, hs⟩), (t2, ⟨"GET", path, hs⟩)] =
      .ok ([(resp0, 1), (resp0, 1)], st0) := by
  have hnc : is_response_cachable ⟨"GET", path, hs⟩ resp0 = false := by
    simp [is_response_cachable, hstatus]
  have hstep : ∀ u : Nat,
      serve cfg (plainHandler (fun _ => resp0)) st0 u ⟨⟨"GET", path, hs⟩, false⟩ =
        .ok (resp0, st0, 1) :=
    fun u => serve_nostore_any_path cfg resp0 ⟨"GET", path, hs⟩ st0 u
      (by simp [is_request_cachable]) hlk hnc
  exact serveRun_cons_ok _ _ _ _ _ _ _ _ _ _ _ (hstep t1)
    (serveRun_cons_ok _ _ _ _ _ _ _ _ _ _ _ (hstep t2) (serveRun_nil _ _ _))

theorem non_200_never_stored_witness :
    serveRun defaultConfig (plainHandler (fun _ => ⟨404, [], "Hello, world!", false⟩))
      Store.empty [(0, ⟨"GET", "/", []⟩), (1, ⟨"GET", "/", []⟩)] =
      .ok ([(⟨404, [], "Hello, world!", false⟩, 1),
        (⟨404, [], "Hello, world!", false⟩, 1)], Store.empty) :=
  non_200_never_stored defaultConfig ⟨404, [], "Hello, world!", false⟩ "/" []
    Store.empty 0 1 (by decide) (by decide)

/-- C5: a cookie-setting response to a cookie-less request is never stored —
every repeated identical request invokes the downstream handler — while the
same cookie-setting response produced for a request that itself carried
cookies IS cachable: the second request is served from cache without
invoking downstream. -/
theorem cookie_response_not_cached (cfg : Config) (resp0 : HResponse)
    (req req' : HRequest) (st0 : Store) (t t1 t2 u1 u2 : Nat)
    (h200 : resp0.status = 200) (hstr : resp0.streaming = false)
    (hsc : responseSetsCookies resp0 = true)
    (hm1 : is_request_cachable req = true)
    (hnc : requestHasCookies req = false)
    (hlk1 : st0.lookup cfg.ns req = none)
    (hm2 : is_request_cachable req' = true)
    (hmm2 : requestMatches (effectiveRules cfg.rules) req'.path = true)
    (hc : requestHasCookies req' = true)
    (hlk2 : st0.lookup cfg.ns req' = none)
    (ht : responseTtl cfg.defaultTtl req'.path resp0.status
      (effectiveRules cfg.rules) = some t)
    (ht0 : t ≠ 0) :
    serveRun cfg (plainHandler (fun _ => resp0)) st0 [(t1, req), (t2, req)] =
      .ok ([(resp0, 1), (resp0, 1)], st0) ∧
    serveRun cfg (plainHandler (fun _ => resp0)) st0 [(u1, req'), (u2, req')] =
      .ok ([(withCacheHeaders u1 t resp0, 1), (withCacheHeaders u1 t resp0, 0)],
        st0.put cfg.ns req' (withCacheHeaders u1 t resp0)) := by
  constructor
  · have hnc' : is_response_cachable req resp0 = false := by
      simp [is_response_cachable, responseSetsCookies] at hsc ⊢
      simp [hsc, hnc]
    have hstep : ∀ u : Nat,
        serve cfg (plainHandler (fun _ => resp0)) st0 u ⟨req, false⟩ =
          .ok (resp0, st0, 1) :=
      fun u => serve_nostore_any_path cfg resp0 req st0 u hm1 hlk1 hnc'
    exact serveRun_cons_ok _ _ _ _ _ _ _ _ _ _ _ (hstep t1)
      (serveRun_cons_ok _ _ _ _ _ _ _ _ _ _ _ (hstep t2) (serveRun_nil _ _ _))
  · have hrc : is_response_cachable req' resp0 = true := by
      simp [is_response_cachable, h200, hstr, hc]
    have hmiss := serve_miss_store cfg (fun _ => resp0) st0 u1 req' t
      hm2 hmm2 hlk2 (by simpa using ht) ht0 hrc
    have hstream : (withCacheHeaders u1 t resp0).streaming = false := by
      rw [withCacheHeaders_streaming]; exact hstr
    have hhit : serve cfg (plainHandler (fun _ => resp0))
        (st0.put cfg.ns req' (withCacheHeaders u1 t resp0)) u2 ⟨req', false⟩ =
        .ok (withCacheHeaders u1 t resp0,
          st0.put cfg.ns req' (withCacheHeaders u1 t resp0), 0) := by
      rw [serve_hit cfg (plainHandler (fun _ => resp0)) _ u2 req'
        (toEntry (withCacheHeaders u1 t resp0)) hm2 hmm2
        (put_lookup_self st0 cfg.ns req' _),
        entry_roundtrip _ hstream]
    exact serveRun_cons_ok _ _ _ _ _ _ _ _ _ _ _ hmiss
      (serveRun_cons_ok _ _ _ _ _ _ _ _ _ _ _ hhit (serveRun_nil _ _ _))

theorem cookie_response_not_cached_witness :
    serveRun defaultConfig
      (plainHandler (fun _ => ⟨200, [("Set-Cookie", "session_id=1234")],
        "Hello, world!", false⟩)) Store.empty
      [(0, ⟨"GET", "/", []⟩), (1, ⟨"GET", "/", []⟩)] =
      .ok ([(⟨200, [("Set-Cookie", "session_id=1234")], "Hello, world!", false⟩, 1),
        (⟨200, [("Set-Cookie", "session_id=1234")], "Hello, world!", false⟩, 1)],
        Store.empty) ∧
    serveRun defaultConfig
      (plainHandler (fun _ => ⟨200, [("Set-Cookie", "session_id=1234")],
        "Hello, world!", false⟩)) Store.empty
      [(0, ⟨"GET", "/", [("Cookie", "a=1")]⟩), (1, ⟨"GET", "/", [("Cookie", "a=1")]⟩)] =
      .ok ([(withCacheHeaders 0 120 ⟨200, [("Set-Cookie", "session_id=1234")],
          "Hello, world!", false⟩, 1),
        (withCacheHeaders 0 120 ⟨200, [("Set-Cookie", "session_id=1234")],
          "Hello, world!", false⟩, 0)],
        Store.empty.put "default" ⟨"GET", "/", [("Cookie", "a=1")]⟩
          (withCacheHeaders 0 120 ⟨200, [("Set-Cookie", "session_id=1234")],
            "Hello, world!", false⟩)) :=
  cookie_response_not_cached defaultConfig
    ⟨200, [("Set-Cookie", "session_id=1234")], "Hello, world!", false⟩
    ⟨"GET", "/", []⟩ ⟨"GET", "/", [("Cookie", "a=1")]⟩ Store.empty 120 0 1 0 1
    (by decide) (by decide) (by decide) (by decide) (by decide) (by decide)
    (by decide) (by decide) (by decide) (by decide) (by decide) (by decide)

/-- C6: HEAD/GET key coincidence — for every namespace and path the cache
key derived for a `HEAD` request equals the one derived for a `GET` to the
same path (whatever the request headers); a cache slot populated by a
`HEAD` request resolves for a later `GET`; and on a fresh cache a
`HEAD /` followed by `GET /` invokes the downstream handler exactly once
(the GET is a hit). -/
theorem head_get_key_coincide :
    (∀ (ns path : String) (h1 h2 : List (String × String)),
      primaryKey ns ⟨"HEAD", path, h1⟩ = primaryKey ns ⟨"GET", path, h2⟩) ∧
    (∀ (st : Store) (ns path : String) (h1 h2 : List (String × String))
      (resp : HResponse), varyNames resp = [] →
      (st.put ns ⟨"HEAD", path, h1⟩ resp).lookup ns ⟨"GET", path, h2⟩ =
        some (toEntry resp)) ∧
    (serveRun defaultConfig (plainHandler helloApp) Store.empty
      [(0, ⟨"HEAD", "/", []⟩), (1, ⟨"GET", "/", []⟩)]).map
      (fun r => r.1.map (fun p => p.2)) = .ok [1, 0] := by
  refine ⟨fun ns path h1 h2 => by simp [primaryKey, keyMethod], ?_, by decide⟩
  intro st ns path h1 h2 resp hvn
  have hpk : primaryKey ns ⟨"GET", path, h2⟩ = primaryKey ns ⟨"HEAD", path, h1⟩ := by
    simp [primaryKey, keyMethod]
  simp [Store.put, Store.lookup, hvn, hpk, assocGet_cons_self]

theorem head_get_key_coincide_witness :
    primaryKey "default" ⟨"HEAD", "/", []⟩ = primaryKey "default" ⟨"GET", "/", []⟩ ∧
    (Store.empty.put "default" ⟨"HEAD", "/", []⟩
      (helloApp ⟨"HEAD", "/", []⟩)).lookup "default" ⟨"GET", "/", []⟩ =
      some (toEntry (helloApp ⟨"HEAD", "/", []⟩)) :=
  ⟨head_get_key_coincide.1 "default" "/" [] [],
    head_get_key_coincide.2.1 Store.empty "default" "/" [] []
      (helloApp ⟨"HEAD", "/", []⟩) (by decide)⟩

/-- C10: a cache entry populated by a `HEAD` request stores the complete
downstream body even though the `HEAD` response delivers an empty body to
the client — on a fresh cache, after `HEAD /x` (client-visible body empty)
a subsequent `GET /x` is served from cache with the full non-empty body
without invoking the downstream handler again. -/
theorem head_populates_full_body (cfg : Config) (f : HRequest → HResponse)
    (path : String) (hs hs' : List (String × String)) (now now' t : Nat)
    (hmm : requestMatches (effectiveRules cfg.rules) path = true)
    (ht : responseTtl cfg.defaultTtl path (f ⟨"HEAD", path, hs⟩).status
      (effectiveRules cfg.rules) = some t)
    (ht0 : t ≠ 0)
    (hrc : is_response_cachable ⟨"HEAD", path, hs⟩ (f ⟨"HEAD", path, hs⟩) = true)
    (hvn : varyNames (f ⟨"HEAD", path, hs⟩) = [])
    (hbody : (f ⟨"HEAD", path, hs⟩).body ≠ "") :
    ∃ st1,
      serve cfg (plainHandler f) Store.empty now ⟨⟨"HEAD", path, hs⟩, false⟩ =
        .ok (withCacheHeaders now t (f ⟨"HEAD", path, hs⟩), st1, 1) ∧
      clientBody "HEAD" (withCacheHeaders now t (f ⟨"HEAD", path, hs⟩)) = "" ∧
      serve cfg (plainHandler f) st1 now' ⟨⟨"GET", path, hs'⟩, false⟩ =
        .ok (withCacheHeaders now t (f ⟨"HEAD", path, hs⟩), st1, 0) ∧
      clientBody "GET" (withCacheHeaders now t (f ⟨"HEAD", path, hs⟩)) =
        (f ⟨"HEAD", path, hs⟩).body ∧
      (f ⟨"HEAD", path, hs⟩).body ≠ "" := by
  set d := withCacheHeaders now t (f ⟨"HEAD", path, hs⟩) with hd
  refine ⟨Store.empty.put cfg.ns ⟨"HEAD", path, hs⟩ d, ?_, rfl, ?_, rfl, hbody⟩
  · exact serve_miss_store cfg f Store.empty now ⟨"HEAD", path, hs⟩ t
      (by simp [is_request_cachable]) hmm (lookup_empty cfg.ns _) ht ht0 hrc
  · have hvn' : varyNames d = [] := by
      rw [hd, varyNames_withCacheHeaders]
      exact hvn
    have hlk : (Store.empty.put cfg.ns ⟨"HEAD", path, hs⟩ d).lookup cfg.ns
        ⟨"GET", path, hs'⟩ = some (toEntry d) := by
      have hpk : primaryKey cfg.ns ⟨"GET", path, hs'⟩ =
          primaryKey cfg.ns ⟨"HEAD", path, hs⟩ := by
        simp [primaryKey, keyMethod]
      simp [Store.put, Store.lookup, hvn', hpk, assocGet_cons_self]
    have hstream : d.streaming = false := by
      rw [hd, withCacheHeaders_streaming]
      exact (response_cachable_facts _ _ hrc).2
    rw [serve_hit cfg (plainHandler f) _ now' ⟨"GET", path, hs'⟩ (toEntry d)
      (by simp [is_request_cachable]) (by simpa using hmm) hlk,
      entry_roundtrip d hstream]

theorem head_populates_full_body_witness :
    ∃ st1,
      serve defaultConfig (plainHandler helloApp) Store.empty 0
        ⟨⟨"HEAD", "/", []⟩, false⟩ =
        .ok (withCacheHeaders 0 120 (helloApp ⟨"HEAD", "/", []⟩), st1, 1) ∧
      clientBody "HEAD" (withCacheHeaders 0 120 (helloApp ⟨"HEAD", "/", []⟩)) = "" ∧
      serve defaultConfig (plainHandler helloApp) st1 7 ⟨⟨"GET", "/", []⟩, false⟩ =
        .ok (withCacheHeaders 0 120 (helloApp ⟨"HEAD", "/", []⟩), st1, 0) ∧
      clientBody "GET" (withCacheHeaders 0 120 (helloApp ⟨"HEAD", "/", []⟩)) =
        (helloApp ⟨"HEAD", "/", []⟩).body ∧
      (helloApp ⟨"HEAD", "/", []⟩).body ≠ "" :=
  head_populates_full_body defaultConfig helloApp "/" [] [] 0 7 120
    (by decide) (by decide) (by decide) (by decide) (by decide) (by decide)

theorem hasHeader_false_lookup_none (hs : List (String × String)) (n : String)
    (h : hasHeader hs n = false) : headerLookup hs n = none := by
  unfold hasHeader at h
  cases hl : headerLookup hs n
  · rfl
  · rw [hl] at h
    simp at h

theorem withCacheHeaders_fresh (now t : Nat) (r : HResponse)
    (hcc : hasHeader r.headers "Cache-Control" = false)
    (hex : hasHeader r.headers "Expires" = false) :
    (withCacheHeaders now t r).headers =
      (r.headers ++ [("Cache-Control", "max-age=" ++ toString t)]) ++
        [("Expires", httpDate (now + t))] := by
  have hex2 : hasHeader
      (r.headers ++ [("Cache-Control", "max-age=" ++ toString t)]) "Expires" = false := by
    unfold hasHeader at hex ⊢
    rw [headerLookup_tail_none _ _ _ (headerLookup_single_ne _ _ _ (by decide))]
    exact hex
  simp [withCacheHeaders, hcc, hex2]

/-- C7: header synthesis on store — when the middleware caches a response
with TTL `t` and the handler set neither header itself, the outgoing
response carries exactly `Cache-Control: max-age=<t>` and an `Expires`
header equal to the HTTP-date (GMT) of the wall-clock capture time plus
`t`; a hit served at any later time `now'` still carries the `Expires`
computed at capture time, not at serve time. -/
theorem cache_headers_synthesized_at_capture (cfg : Config)
    (f : HRequest → HResponse) (req : HRequest) (st0 : Store) (now t : Nat)
    (h1 : is_request_cachable req = true)
    (h2 : requestMatches (effectiveRules cfg.rules) req.path = true)
    (h3 : st0.lookup cfg.ns req = none)
    (h4 : responseTtl cfg.defaultTtl req.path (f req).status
      (effectiveRules cfg.rules) = some t)
    (h5 : t ≠ 0)
    (h6 : is_response_cachable req (f req) = true)
    (hcc : hasHeader (f req).headers "Cache-Control" = false)
    (hex : hasHeader (f req).headers "Expires" = false) :
    ∃ st1,
      serve cfg (plainHandler f) st0 now ⟨req, false⟩ =
        .ok (withCacheHeaders now t (f req), st1, 1) ∧
      headerLookup (withCacheHeaders now t (f req)).headers "Cache-Control" =
        some ("max-age=" ++ toString t) ∧
      headerLookup (withCacheHeaders now t (f req)).headers "Expires" =
        some (httpDate (now + t)) ∧
      ∀ now' : Nat,
        serve cfg (plainHandler f) st1 now' ⟨req, false⟩ =
          .ok (withCacheHeaders now t (f req), st1, 0) := by
  have hfresh := withCacheHeaders_fresh now t (f req) hcc hex
  have hccn := hasHeader_false_lookup_none _ _ hcc
  have hexn := hasHeader_false_lookup_none _ _ hex
  refine ⟨st0.put cfg.ns req (withCacheHeaders now t (f req)),
    serve_miss_store cfg f st0 now req t h1 h2 h3 h4 h5 h6, ?_, ?_, ?_⟩
  · rw [hfresh, headerLookup_append, headerLookup_append, hccn,
      headerLookup_single_self _ _ _ (by decide),
      headerLookup_single_ne _ _ _ (by decide)]
    rfl
  · rw [hfresh, headerLookup_append, headerLookup_append, hexn,
      headerLookup_single_ne _ _ _ (by decide),
      headerLookup_single_self _ _ _ (by decide)]
    rfl
  · intro now'
    have hstream : (withCacheHeaders now t (f req)).streaming = false := by
      rw [withCacheHeaders_streaming]
      exact (response_cachable_facts req (f req) h6).2
    rw [serve_hit cfg (plainHandler f) _ now' req
      (toEntry (withCacheHeaders now t (f req))) h1 h2
      (put_lookup_self st0 cfg.ns req _),
      entry_roundtrip _ hstream]

theorem cache_headers_synthesized_at_capture_witness :
    ∃ st1,
      serve defaultConfig (plainHandler helloApp) Store.empty 0
        ⟨⟨"GET", "/", []⟩, false⟩ =
        .ok (withCacheHeaders 0 120 (helloApp ⟨"GET", "/", []⟩), st1, 1) ∧
      headerLookup (withCacheHeaders 0 120 (helloApp ⟨"GET", "/", []⟩)).headers
        "Cache-Control" = some ("max-age=" ++ toString 120) ∧
      headerLookup (withCacheHeaders 0 120 (helloApp ⟨"GET", "/", []⟩)).headers
        "Expires" = some (httpDate (0 + 120)) ∧
      ∀ now' : Nat,
        serve defaultConfig (plainHandler helloApp) st1 now' ⟨⟨"GET", "/", []⟩, false⟩ =
          .ok (withCacheHeaders 0 120 (helloApp ⟨"GET", "/", []⟩), st1, 0) :=
  cache_headers_synthesized_at_capture defaultConfig helloApp ⟨"GET", "/", []⟩
    Store.empty 0 120 (by decide) (by decide) (by decide) (by decide) (by decide)
    (by decide) (by decide) (by decide)

/-- C8: duplicate-caching detection — whenever a request's processing path
traverses two nested caching middleware instances for the same route, the
first such request (fresh outer cache) is aborted with `DuplicateCaching`
instead of producing any response, whatever the configurations, the inner
store, the request and the innermost handler. -/
theorem nested_middleware_duplicate_caching (cfg1 cfg2 : Config) (st2 : Store)
    (now1 now2 : Nat) (req : HRequest) (h : Handler) :
    serve cfg1 (middlewareHandler cfg2 st2 now2 h) Store.empty now1 ⟨req, false⟩ =
      .error .duplicateCaching := by
  have hin : middlewareHandler cfg2 st2 now2 h ⟨req, true⟩ =
      .error .duplicateCaching := by
    simp [middlewareHandler, serve, Except.map]
  by_cases hc : (!is_request_cachable req ||
      !requestMatches (effectiveRules cfg1.rules) req.path) = true
  · simp [serve, hc, hin, Except.map]
  · simp [serve, hc, hin, lookup_empty, Except.map]

theorem withCacheHeaders_cc_present (now t : Nat) (r : HResponse)
    (hcc : hasHeader r.headers "Cache-Control" = true) :
    (withCacheHeaders now t r).headers = r.headers ∨
    (withCacheHeaders now t r).headers =
      r.headers ++ [("Expires", httpDate (now + t))] := by
  by_cases hex : hasHeader r.headers "Expires" = true
  · left
    simp [withCacheHeaders, hcc, hex]
  · right
    simp [withCacheHeaders, hcc, hex]

/-- C9: decorator override of the `Cache-Control` text — for a handler
wrapped by `cache_control(**directives)`, every cached response carries the
`Cache-Control` text built from the decorator's directives (not the
`max-age` string synthesized from the TTL), both on the storing response
and on every later cache hit; a rule-derived TTL of 0 still suppresses
caching entirely (both identical requests hit downstream and the store
stays empty) while the decorator header remains on the responses; and the
directives `max-age=30, must-revalidate` render exactly as in the tests. -/
theorem cache_control_decorator_overrides (cfg : Config) (d : CacheDirectives)
    (f : HRequest → HResponse) (req : HRequest) (st0 : Store) (now t : Nat)
    (h1 : is_request_cachable req = true)
    (h2 : requestMatches (effectiveRules cfg.rules) req.path = true)
    (h3 : st0.lookup cfg.ns req = none)
    (h6 : is_response_cachable req (f req) = true)
    (hcc : hasHeader (f req).headers "Cache-Control" = false)
    (ht : responseTtl cfg.defaultTtl req.path (f req).status
      (effectiveRules cfg.rules) = some t)
    (ht0 : t ≠ 0) :
    (∃ st1,
      serve cfg (plainHandler (cache_control d f)) st0 now ⟨req, false⟩ =
        .ok (withCacheHeaders now t (cache_control d f req), st1, 1) ∧
      headerLookup (withCacheHeaders now t (cache_control d f req)).headers
        "Cache-Control" = some (renderDirectives d) ∧
      ∀ now' : Nat,
        serve cfg (plainHandler (cache_control d f)) st1 now' ⟨req, false⟩ =
          .ok (withCacheHeaders now t (cache_control d f req), st1, 0)) ∧
    (serveRun zeroTtlConfig
      (plainHandler (cache_control ⟨some 30, true⟩ helloApp)) Store.empty
      [(0, ⟨"GET", "/", []⟩), (1, ⟨"GET", "/", []⟩)]).map
      (fun r => (r.1.map (fun p =>
        (headerLookup p.1.headers "Cache-Control", p.2)), r.2)) =
      .ok ([(some "max-age=30, must-revalidate", 1),
        (some "max-age=30, must-revalidate", 1)], Store.empty) ∧
    renderDirectives ⟨some 30, true⟩ = "max-age=30, must-revalidate" := by
  have hccn : headerLookup (f req).headers "Cache-Control" = none :=
    hasHeader_false_lookup_none _ _ hcc
  have hsc : responseSetsCookies (cache_control d f req) =
      responseSetsCookies (f req) := by
    show (headerLookup ((f req).headers ++ [("Cache-Control", renderDirectives d)])
      "Set-Cookie").isSome = (headerLookup (f req).headers "Set-Cookie").isSome
    rw [headerLookup_tail_none _ _ _ (headerLookup_single_ne _ _ _ (by decide))]
  have hrc : is_response_cachable req (cache_control d f req) = true := by
    unfold is_response_cachable at h6 ⊢
    rw [show (cache_control d f req).status = (f req).status from rfl,
      show (cache_control d f req).streaming = (f req).streaming from rfl, hsc]
    exact h6
  have hgcc : hasHeader (cache_control d f req).headers "Cache-Control" = true := by
    show (headerLookup ((f req).headers ++ [("Cache-Control", renderDirectives d)])
      "Cache-Control").isSome = true
    rw [headerLookup_append, hccn, headerLookup_single_self _ _ _ (by decide)]
    rfl
  have hglk : headerLookup (cache_control d f req).headers "Cache-Control" =
      some (renderDirectives d) := by
    show headerLookup ((f req).headers ++ [("Cache-Control", renderDirectives d)])
      "Cache-Control" = some (renderDirectives d)
    rw [headerLookup_append, hccn, headerLookup_single_self _ _ _ (by decide)]
    rfl
  refine ⟨?_, by decide, by decide⟩
  refine ⟨st0.put cfg.ns req (withCacheHeaders now t (cache_control d f req)),
    serve_miss_store cfg (cache_control d f) st0 now req t h1 h2 h3 ht ht0 hrc,
    ?_, ?_⟩
  · rcases withCacheHeaders_cc_present now t (cache_control d f req) hgcc with
      hcase | hcase
    · rw [hcase]
      exact hglk
    · rw [hcase,
        headerLookup_tail_none _ _ _ (headerLookup_single_ne _ _ _ (by decide))]
      exact hglk
  · intro now'
    have hstream : (withCacheHeaders now t (cache_control d f req)).streaming =
        false := by
      rw [withCacheHeaders_streaming]
      exact (response_cachable_facts _ _ hrc).2
    rw [serve_hit cfg (plainHandler (cache_control d f)) _ now' req
      (toEntry (withCacheHeaders now t (cache_control d f req))) h1 h2
      (put_lookup_self st0 cfg.ns req _),
      entry_roundtrip _ hstream]

theorem cache_control_decorator_overrides_witness :
    (∃ st1,
      serve defaultConfig
        (plainHandler (cache_control ⟨some 30, true⟩ helloApp)) Store.empty 0
        ⟨⟨"GET", "/", []⟩, false⟩ =
        .ok (withCacheHeaders 0 120
          (cache_control ⟨some 30, true⟩ helloApp ⟨"GET", "/", []⟩), st1, 1) ∧
      headerLookup (withCacheHeaders 0 120
        (cache_control ⟨some 30, true⟩ helloApp ⟨"GET", "/", []⟩)).headers
        "Cache-Control" = some (renderDirectives ⟨some 30, true⟩) ∧
      ∀ now' : Nat,
        serve defaultConfig
          (plainHandler (cache_control ⟨some 30, true⟩ helloApp)) st1 now'
          ⟨⟨"GET", "/", []⟩, false⟩ =
          .ok (withCacheHeaders 0 120
            (cache_control ⟨some 30, true⟩ helloApp ⟨"GET", "/", []⟩), st1, 0)) ∧
    (serveRun zeroTtlConfig
      (plainHandler (cache_control ⟨some 30, true⟩ helloApp)) Store.empty
      [(0, ⟨"GET", "/", []⟩), (1, ⟨"GET", "/", []⟩)]).map
      (fun r => (r.1.map (fun p =>
        (headerLookup p.1.headers "Cache-Control", p.2)), r.2)) =
      .ok ([(some "max-age=30, must-revalidate", 1),
        (some "max-age=30, must-revalidate", 1)], Store.empty) ∧
    renderDirectives ⟨some 30, true⟩ = "max-age=30, must-revalidate" :=
  cache_control_decorator_overrides defaultConfig ⟨some 30, true⟩ helloApp
    ⟨"GET", "/", []⟩ Store.empty 0 120 (by decide) (by decide) (by decide)
    (by decide) (by decide) (by decide) (by decide)

end AsgiCaches
